import Mathlib

/-!
Shallow embedding of `falcon_signed_requests/middleware.py`
(class `AuthenticRequestMiddleware`) together with the external
collaborators it calls (Python's `hmac`/`hashlib`/`base64` digests, the
`time_uuid.TimeUUID` timestamp extractor, Redis, and the falcon media
handler), and theorems settling the frozen claims about the spec.

Conventions of the embedding:
- Python `bytes` and `str` are both word lists (`List Nat`): byte values
  for `bytes`, Unicode codepoints for `str`.  Where Python's runtime
  distinguishes the two types (in `hmac.compare_digest`), the embedding
  carries the tag explicitly (`SB`).
- Time is `ℚ` (Python's `time.time()` float and UUID1 timestamps).
- Exceptions are modelled by `Except PyError`; each `PyError`
  constructor documents which Python exception it stands for.
- The HMAC digest itself (`hmac.new(key, msg, digestmod).digest()`),
  the UUID timestamp extraction (`TimeUUID(s).get_timestamp()`) and the
  falcon media deserializer are external library calls, so the
  definitions are parametric in them (`hm`, `getTs`, `deser`).
-/

/-- Python `bytes`: a list of byte values. -/
abbrev Bytes := List Nat

/-- Python `str`: a list of Unicode codepoints. -/
abbrev Str := List Nat

/-- The Python exceptions the middleware can raise per request. -/
inductive PyError where
  /-- `ValueError("No secret configured")` raised in `_has_valid_signature`. -/
  | noSecret
  /-- `ValueError` raised by `TimeUUID(request_id)` on a malformed identifier. -/
  | uuidParse
  /-- `TypeError`: `hmac.compare_digest` on mixed `bytes`/`str` (or `None`,
      or non-ASCII `str`), and `str.join` / `TimeUUID` applied to `None`. -/
  | typeMismatch
  /-- `AttributeError`: `None.encode("utf-8")` when the UUID header is absent. -/
  | noneEncode
  /-- `AssertionError`: `assert self.redis is not None`. -/
  | assertFail
deriving DecidableEq

/-- Config entry `hash`: `"sha256"` or anything else (treated as sha1). -/
inductive HashAlg where
  | sha256
  | sha1
deriving DecidableEq

/-- Config entry `digest`: `"base64"` or anything else (treated as hex). -/
inductive DigestEnc where
  | base64
  | hex
deriving DecidableEq

/-- The middleware configuration captured in `__init__`.
Here `noncePre` is the config entry naming the namespace put in front of
replay-store key names (source default `"nonce"`). -/
structure Config where
  secret : Option Str
  expiry : ℚ
  digest : DigestEnc
  hash : HashAlg
  noncePre : Str
  isUuidRequired : Bool
deriving DecidableEq

/-- UTF-8 encoding of one codepoint (`str.encode("utf-8")`, per char). -/
def utf8Char (c : Nat) : List Nat :=
  if c < 0x80 then [c]
  else if c < 0x800 then [0xC0 + c / 64, 0x80 + c % 64]
  else if c < 0x10000 then [0xE0 + c / 4096, 0x80 + c / 64 % 64, 0x80 + c % 64]
  else [0xF0 + c / 262144, 0x80 + c / 4096 % 64, 0x80 + c / 64 % 64, 0x80 + c % 64]

/-- Python `s.encode("utf-8")`. -/
def utf8 (s : Str) : Bytes := (s.map utf8Char).flatten

/-- The base64 alphabet character at index `n < 64`. -/
def b64Char (n : Nat) : Nat :=
  if n < 26 then 65 + n
  else if n < 52 then 97 + (n - 26)
  else if n < 62 then 48 + (n - 52)
  else if n = 62 then 43
  else 47

/-- Python `base64.b64encode`: returns `bytes` (standard alphabet, `=` pad). -/
def b64encode : Bytes → Bytes
  | [] => []
  | [a] => [b64Char (a / 4), b64Char (a % 4 * 16), 61, 61]
  | [a, b] => [b64Char (a / 4), b64Char (a % 4 * 16 + b / 16), b64Char (b % 16 * 4), 61]
  | a :: b :: c :: rest =>
      b64Char (a / 4) :: b64Char (a % 4 * 16 + b / 16) ::
        b64Char (b % 16 * 4 + c / 64) :: b64Char (c % 64) :: b64encode rest

/-- Lowercase hex character for a nibble. -/
def hexChar (n : Nat) : Nat := if n < 10 then 48 + n else 87 + n

/-- Python `hmac.HMAC.hexdigest()`: returns a `str` of lowercase hex. -/
def hexdigest (bs : Bytes) : Str :=
  (bs.map (fun x => [hexChar (x / 16), hexChar (x % 16)])).flatten

/-- A Python value that is either a `str` or a `bytes`. -/
inductive SB where
  | s (v : Str)
  | b (v : Bytes)
deriving DecidableEq

/-- All codepoints are ASCII. -/
def allAscii (s : Str) : Bool := s.all (fun c => c < 128)

/-- Model of `hmac.compare_digest(generated, signature)` where `signature` is the
header value (`str`, or `None` when the header is absent).  Python raises
`TypeError` when the two arguments are not both `str` (ASCII only) or both
bytes-like; here `generated` is `str` or `bytes` and the header is `str`. -/
def compareDigest (generated : SB) (signature : Option Str) : Except PyError Bool :=
  match signature with
  | none => .error .typeMismatch
  | some s =>
    match generated with
    | .b _ => .error .typeMismatch
    | .s g => if allAscii g && allAscii s then .ok (g = s) else .error .typeMismatch

/-- The replay store (Redis): entries `(key, value, expireAt)` where
`expireAt` is the absolute time at which the key lapses (`set ... ex=ttl`
stores `now + ttl`). -/
abbrev Store := List (Str × Str × ℚ)

/-- Operation `redis.get(k)` at time `now`: the stored value if the key is present
and not yet expired. -/
def storeGet (st : Store) (now : ℚ) (k : Str) : Option Str :=
  match st.find? (fun e => decide (e.1 = k)) with
  | some (_, v, expAt) => if now < expAt then some v else none
  | none => none

/-- Operation `redis.set(k, v, ex=ttl)` at time `now`: overwrite the key with
expiry `now + ttl`. -/
def storeSet (st : Store) (now : ℚ) (k v : Str) (ttl : ℚ) : Store :=
  (k, v, now + ttl) :: st.filter (fun e => decide (e.1 ≠ k))

/-- Source `_get_redis_key`: `".".join([<nonce namespace>, request_id])`. -/
def _get_redis_key (cfg : Config) (request_id : Str) : Str :=
  cfg.noncePre ++ 46 :: request_id

/-- Source `_has_unused_id`: asserts the store is present, then reports whether
`redis.get` on the derived key is `None`.  The second component is the
instrumentation record of the keys read from the store. -/
def _has_unused_id (cfg : Config) (redis : Option Store) (now : ℚ) (request_id : Str) :
    Except PyError (Bool × List Str) :=
  match redis with
  | none => .error .assertFail
  | some st =>
    .ok ((storeGet st now (_get_redis_key cfg request_id)).isNone, [_get_redis_key cfg request_id])

/-- Source `_set_id_as_used`: asserts the store is present, then writes the key
with `ex = expiry * 2`.  Returns the new store and the instrumentation
record `(key, value, ttl)` of the write performed. -/
def _set_id_as_used (cfg : Config) (redis : Option Store) (now : ℚ) (request_id : Option Str) :
    Except PyError (Option Store × List (Str × Str × ℚ)) :=
  match redis with
  | none => .error .assertFail
  | some st =>
    match request_id with
    | none => .error .typeMismatch
    | some rid =>
      .ok (some (storeSet st now (_get_redis_key cfg rid) rid (cfg.expiry * 2)),
           [(_get_redis_key cfg rid, rid, cfg.expiry * 2)])

/-- Source `_has_valid_request_id`: extract the UUID1 timestamp (may raise),
compute the freshness check `time() - timestamp < expiry`, query the
replay store, and conjoin.  `getTs` models `TimeUUID(s).get_timestamp()`
(`none` = `ValueError`).  Applying it to an absent header (`None`) raises
`TypeError` in Python. -/
def _has_valid_request_id (getTs : Str → Option ℚ) (cfg : Config) (redis : Option Store)
    (now : ℚ) (request_id : Option Str) : Except PyError (Bool × List Str) :=
  match request_id with
  | none => .error .typeMismatch
  | some rid =>
    match getTs rid with
    | none => .error .uuidParse
    | some ts =>
      match _has_unused_id cfg redis now rid with
      | .error e => .error e
      | .ok (isUnused, reads) => .ok (decide (now - ts < cfg.expiry) && isUnused, reads)

/-- The payload block of `_has_valid_signature` (lines 119-126):
`request_id.encode("utf-8") + body` when the UUID is required (an absent
header raises `AttributeError`), else `body` alone. -/
def mkPayload (cfg : Config) (body : Bytes) (request_id : Option Str) : Except PyError Bytes :=
  if cfg.isUuidRequired then
    match request_id with
    | none => .error .noneEncode
    | some rid => .ok (utf8 rid ++ body)
  else .ok body

/-- Source `_has_valid_signature`: build the payload, check the secret, build
the digest in the configured encoding (base64 gives `bytes`, hex gives
`str`), and run the constant-time comparison against the header value. -/
def _has_valid_signature (hm : HashAlg → Bytes → Bytes → Bytes) (cfg : Config)
    (body : Bytes) (request_id : Option Str) (signature : Option Str) : Except PyError Bool :=
  match mkPayload cfg body request_id with
  | .error e => .error e
  | .ok payload =>
    match cfg.secret with
    | none => .error .noSecret
    | some secret =>
      match cfg.digest with
      | .base64 => compareDigest (.b (b64encode (hm cfg.hash (utf8 secret) payload))) signature
      | .hex => compareDigest (.s (hexdigest (hm cfg.hash (utf8 secret) payload))) signature

/-- The observable per-request outputs set on the falcon request object:
the context/auth flag, the attached raw body, and the media-parse step. -/
structure Verdict where
  authenticated : Bool
  ctxUuid : Option Str
  reqBody : Option Bytes
  mediaAttempted : Bool
  media : Option Bytes
deriving DecidableEq

/-- How `process_resource` ends: the early `return`, a completed verdict
(`authenticated = false` means `falcon.HTTPForbidden` was raised — the
4xx negative verdict), or an uncaught Python exception. -/
inductive Outcome where
  | earlyReturn
  | verdict (v : Verdict)
  | exn (e : PyError)
deriving DecidableEq

/-- Result of one `process_resource` call: outcome, whether the body
stream was consumed, the replay store afterwards, and the instrumentation
logs of store reads and writes. -/
structure ProcResult where
  outcome : Outcome
  bodyRead : Bool
  store : Option Store
  reads : List Str
  writes : List (Str × Str × ℚ)
deriving DecidableEq

/-- The request-object fields written at the end of `process_resource`. -/
def mkVerdict (deser : Bytes → Option Bytes) (cfg : Config) (freshUuid : Str)
    (request_id : Option Str) (isAuth : Bool) (body : Bytes) : Verdict :=
  { authenticated := isAuth
    ctxUuid := if request_id.isNone && cfg.isUuidRequired then some freshUuid else request_id
    reqBody := if isAuth then some body else none
    mediaAttempted := isAuth
    media := if isAuth then deser body else none }

/-- The `is_authenticated` computation of `process_resource` (lines
170-175): delegate to `_has_valid_request_id` only on a signature match
with the UUID required. -/
def authStep (getTs : Str → Option ℚ) (cfg : Config) (redis : Option Store) (now : ℚ)
    (request_id : Option Str) (matched : Bool) : Except PyError (Bool × List Str) :=
  if matched then
    if cfg.isUuidRequired then _has_valid_request_id getTs cfg redis now request_id
    else .ok (true, [])
  else .ok (false, [])

/-- Source `process_resource`: the per-request flow of the middleware.
`hm` is the external HMAC digest, `getTs` the external UUID timestamp
extractor, `deser` the falcon media deserializer (`none` = the swallowed
deserialize exception), `freshUuid` the value of `str(uuid1())`. -/
def process_resource (hm : HashAlg → Bytes → Bytes → Bytes) (getTs : Str → Option ℚ)
    (deser : Bytes → Option Bytes) (freshUuid : Str) (cfg : Config) (redis : Option Store)
    (now : ℚ) (method : Str) (signature request_id : Option Str) (body : Bytes) : ProcResult :=
  if method ≠ [80, 79, 83, 84] ∧ signature.isSome then
    { outcome := .earlyReturn, bodyRead := false, store := redis, reads := [], writes := [] }
  else
    match _has_valid_signature hm cfg body request_id signature with
    | .error e => { outcome := .exn e, bodyRead := true, store := redis, reads := [], writes := [] }
    | .ok matched =>
      match authStep getTs cfg redis now request_id matched with
      | .error e =>
          { outcome := .exn e, bodyRead := true, store := redis, reads := [], writes := [] }
      | .ok (isAuth, reads) =>
        match (if isAuth && cfg.isUuidRequired then _set_id_as_used cfg redis now request_id
               else .ok (redis, [])) with
        | .error e =>
            { outcome := .exn e, bodyRead := true, store := redis, reads := reads, writes := [] }
        | .ok (store2, writes) =>
            { outcome := .verdict (mkVerdict deser cfg freshUuid request_id isAuth body)
              bodyRead := true, store := store2, reads := reads, writes := writes }

/-! Concrete instances used in closed statements. -/

/-- Stand-in external HMAC digest for concrete instances: one zero byte. -/
def hmK : HashAlg → Bytes → Bytes → Bytes := fun _ _ _ => [0]

/-- UUID timestamp extractor that always extracts time 0. -/
def tsZero : Str → Option ℚ := fun _ => some 0

/-- UUID timestamp extractor for a malformed identifier (`TimeUUID` raising). -/
def tsNone : Str → Option ℚ := fun _ => none

/-- Media deserializer whose deserialize call always raises (swallowed). -/
def desNone : Bytes → Option Bytes := fun _ => none

/-- Default-style configuration: sha256, base64 digest, UUID required. -/
def cfgB64Req : Config := ⟨some [115], 300, .base64, .sha256, [110], true⟩

/-- Hex-digest configuration with the UUID required. -/
def cfgHexReq : Config := ⟨some [115], 300, .hex, .sha256, [110], true⟩

/-- Hex-digest configuration with the UUID not required. -/
def cfgHexNoId : Config := ⟨some [115], 300, .hex, .sha256, [110], false⟩

/-- Base64-digest configuration with the UUID not required. -/
def cfgB64NoId : Config := ⟨some [115], 300, .base64, .sha256, [110], false⟩

/-- The method string "POST". -/
def postM : Str := [80, 79, 83, 84]

/-- The method string "GET". -/
def getM : Str := [71, 69, 84]


/-- Erase the media field of a result: everything `process_resource`
produces apart from the parsed media. -/
def scrubMedia (r : ProcResult) : ProcResult :=
  match r.outcome with
  | .verdict v => { r with outcome := .verdict { v with media := none } }
  | _ => r

theorem storeGet_set_same (st : Store) (now t : ℚ) (k v : Str) (ttl : ℚ) :
    storeGet (storeSet st now k v ttl) t k = if t < now + ttl then some v else none := by
  simp [storeGet, storeSet, List.find?]

theorem hexdigest_ascii (bs : Bytes) (h : ∀ x ∈ bs, x < 256) : allAscii (hexdigest bs) = true := by
  induction bs with
  | nil => rfl
  | cons a t ih =>
    simp only [hexdigest, List.map_cons, List.flatten_cons, allAscii, List.all_append] at *
    refine Bool.and_eq_true_iff.mpr ⟨?_, ?_⟩
    · have ha : a < 256 := h a (by simp)
      simp only [List.all_cons, List.all_nil, Bool.and_true, Bool.and_eq_true,
        decide_eq_true_eq]
      unfold hexChar
      constructor <;> split <;> omega
    · exact ih (fun x hx => h x (by simp [hx]))

theorem compareDigest_self (g : Str) (h : allAscii g = true) :
    compareDigest (.s g) (some g) = .ok true := by
  simp [compareDigest, h]

theorem proc_used_id_not_auth (hm : HashAlg → Bytes → Bytes → Bytes) (getTs : Str → Option ℚ)
    (deser : Bytes → Option Bytes) (freshUuid : Str) (cfg : Config) (st : Store) (now : ℚ)
    (method : Str) (signature : Option Str) (rid : Str) (body : Bytes)
    (hreq : cfg.isUuidRequired = true)
    (hused : storeGet st now (_get_redis_key cfg rid) ≠ none) :
    (∀ v, (process_resource hm getTs deser freshUuid cfg (some st) now method signature
        (some rid) body).outcome = .verdict v → v.authenticated = false) ∧
    (process_resource hm getTs deser freshUuid cfg (some st) now method signature
        (some rid) body).store = some st ∧
    (process_resource hm getTs deser freshUuid cfg (some st) now method signature
        (some rid) body).writes = [] := by
  unfold process_resource
  split
  · simp
  · cases hsig : _has_valid_signature hm cfg body (some rid) signature with
    | error e => simp
    | ok matched =>
      cases matched with
      | false =>
        simp [authStep, mkVerdict]
      | true =>
        simp only [authStep, if_pos rfl, hreq, if_pos rfl, _has_valid_request_id]
        cases hts : getTs rid with
        | none => simp
        | some ts =>
          simp only [_has_unused_id]
          have : (storeGet st now (_get_redis_key cfg rid)).isNone = false := by
            cases hg : storeGet st now (_get_redis_key cfg rid) with
            | none => exact absurd hg hused
            | some v => rfl
          simp [this, mkVerdict]

theorem proc_eq_auth (hm : HashAlg → Bytes → Bytes → Bytes) (getTs : Str → Option ℚ)
    (deser : Bytes → Option Bytes) (freshUuid : Str) (cfg : Config) (st : Store)
    (now : ℚ) (method : Str) (signature : Option Str) (rid : Str) (ts : ℚ) (body : Bytes)
    (hearly : ¬(method ≠ [80, 79, 83, 84] ∧ signature.isSome = true))
    (hsig : _has_valid_signature hm cfg body (some rid) signature = .ok true)
    (hreq : cfg.isUuidRequired = true)
    (hts : getTs rid = some ts)
    (hg : storeGet st now (_get_redis_key cfg rid) = none)
    (hfresh : now - ts < cfg.expiry) :
    process_resource hm getTs deser freshUuid cfg (some st) now method signature
        (some rid) body =
      { outcome := .verdict (mkVerdict deser cfg freshUuid (some rid) true body)
        bodyRead := true
        store := some (storeSet st now (_get_redis_key cfg rid) rid (cfg.expiry * 2))
        reads := [_get_redis_key cfg rid]
        writes := [(_get_redis_key cfg rid, rid, cfg.expiry * 2)] } := by
  unfold process_resource
  rw [if_neg hearly, hsig]
  simp [authStep, hreq, _has_valid_request_id, hts, _has_unused_id, hg, hfresh,
    _set_id_as_used]

theorem proc_auth_char (hm : HashAlg → Bytes → Bytes → Bytes) (getTs : Str → Option ℚ)
    (deser : Bytes → Option Bytes) (freshUuid : Str) (cfg : Config) (redis : Option Store)
    (now : ℚ) (method : Str) (signature request_id : Option Str) (body : Bytes)
    (hreq : cfg.isUuidRequired = true) (v : Verdict)
    (h : (process_resource hm getTs deser freshUuid cfg redis now method signature
        request_id body).outcome = .verdict v)
    (hauth : v.authenticated = true) :
    ∃ rid ts st, request_id = some rid ∧ getTs rid = some ts ∧ now - ts < cfg.expiry ∧
      redis = some st ∧ storeGet st now (_get_redis_key cfg rid) = none ∧
      (process_resource hm getTs deser freshUuid cfg redis now method signature
        request_id body).store =
        some (storeSet st now (_get_redis_key cfg rid) rid (cfg.expiry * 2)) ∧
      (process_resource hm getTs deser freshUuid cfg redis now method signature
        request_id body).writes = [(_get_redis_key cfg rid, rid, cfg.expiry * 2)] := by
  by_cases hearly : method ≠ [80, 79, 83, 84] ∧ signature.isSome = true
  · unfold process_resource at h
    rw [if_pos hearly] at h
    simp at h
  · unfold process_resource at h
    rw [if_neg hearly] at h
    cases hsig : _has_valid_signature hm cfg body request_id signature with
    | error e => rw [hsig] at h; simp at h
    | ok matched =>
      rw [hsig] at h
      cases matched with
      | false =>
        simp [authStep, mkVerdict] at h
        rw [← h] at hauth
        simp at hauth
      | true =>
        simp only [authStep, hreq, if_true] at h
        cases request_id with
        | none => simp [_has_valid_request_id] at h
        | some rid =>
          cases hts : getTs rid with
          | none => simp [_has_valid_request_id, hts] at h
          | some ts =>
            cases redis with
            | none => simp [_has_valid_request_id, hts, _has_unused_id] at h
            | some st =>
              cases hg : storeGet st now (_get_redis_key cfg rid) with
              | some w =>
                simp [_has_valid_request_id, hts, _has_unused_id, hg, mkVerdict] at h
                rw [← h] at hauth
                simp at hauth
              | none =>
                by_cases hfresh : now - ts < cfg.expiry
                · have hres := proc_eq_auth hm getTs deser freshUuid cfg st now method
                    signature rid ts body hearly hsig hreq hts hg hfresh
                  exact ⟨rid, ts, st, rfl, hts, hfresh, rfl, hg,
                    by rw [hres], by rw [hres]⟩
                · simp [_has_valid_request_id, hts, _has_unused_id, hg, hfresh,
                    mkVerdict] at h
                  rw [← h] at hauth
                  simp at hauth

theorem proc_eq_early (hm : HashAlg → Bytes → Bytes → Bytes) (getTs : Str → Option ℚ)
    (deser : Bytes → Option Bytes) (freshUuid : Str) (cfg : Config) (redis : Option Store)
    (now : ℚ) (method : Str) (signature request_id : Option Str) (body : Bytes)
    (hearly : method ≠ [80, 79, 83, 84] ∧ signature.isSome = true) :
    process_resource hm getTs deser freshUuid cfg redis now method signature request_id body =
      ⟨.earlyReturn, false, redis, [], []⟩ := by
  unfold process_resource
  rw [if_pos hearly]

theorem proc_eq_sigerr (hm : HashAlg → Bytes → Bytes → Bytes) (getTs : Str → Option ℚ)
    (deser : Bytes → Option Bytes) (freshUuid : Str) (cfg : Config) (redis : Option Store)
    (now : ℚ) (method : Str) (signature request_id : Option Str) (body : Bytes) (e : PyError)
    (hearly : ¬(method ≠ [80, 79, 83, 84] ∧ signature.isSome = true))
    (hsig : _has_valid_signature hm cfg body request_id signature = .error e) :
    process_resource hm getTs deser freshUuid cfg redis now method signature request_id body =
      ⟨.exn e, true, redis, [], []⟩ := by
  unfold process_resource
  rw [if_neg hearly, hsig]

theorem proc_eq_nomatch (hm : HashAlg → Bytes → Bytes → Bytes) (getTs : Str → Option ℚ)
    (deser : Bytes → Option Bytes) (freshUuid : Str) (cfg : Config) (redis : Option Store)
    (now : ℚ) (method : Str) (signature request_id : Option Str) (body : Bytes)
    (hearly : ¬(method ≠ [80, 79, 83, 84] ∧ signature.isSome = true))
    (hsig : _has_valid_signature hm cfg body request_id signature = .ok false) :
    process_resource hm getTs deser freshUuid cfg redis now method signature request_id body =
      ⟨.verdict (mkVerdict deser cfg freshUuid request_id false body), true, redis, [], []⟩ := by
  unfold process_resource
  rw [if_neg hearly, hsig]
  simp [authStep]

theorem proc_eq_noid (hm : HashAlg → Bytes → Bytes → Bytes) (getTs : Str → Option ℚ)
    (deser : Bytes → Option Bytes) (freshUuid : Str) (cfg : Config) (redis : Option Store)
    (now : ℚ) (method : Str) (signature request_id : Option Str) (body : Bytes)
    (hearly : ¬(method ≠ [80, 79, 83, 84] ∧ signature.isSome = true))
    (hsig : _has_valid_signature hm cfg body request_id signature = .ok true)
    (hreq : cfg.isUuidRequired = false) :
    process_resource hm getTs deser freshUuid cfg redis now method signature request_id body =
      ⟨.verdict (mkVerdict deser cfg freshUuid request_id true body), true, redis, [], []⟩ := by
  unfold process_resource
  rw [if_neg hearly, hsig]
  simp [authStep, hreq]

theorem proc_eq_idstep_err (hm : HashAlg → Bytes → Bytes → Bytes) (getTs : Str → Option ℚ)
    (deser : Bytes → Option Bytes) (freshUuid : Str) (cfg : Config) (redis : Option Store)
    (now : ℚ) (method : Str) (signature request_id : Option Str) (body : Bytes) (e : PyError)
    (hearly : ¬(method ≠ [80, 79, 83, 84] ∧ signature.isSome = true))
    (hsig : _has_valid_signature hm cfg body request_id signature = .ok true)
    (hreq : cfg.isUuidRequired = true)
    (hstep : _has_valid_request_id getTs cfg redis now request_id = .error e) :
    process_resource hm getTs deser freshUuid cfg redis now method signature request_id body =
      ⟨.exn e, true, redis, [], []⟩ := by
  unfold process_resource
  rw [if_neg hearly, hsig]
  simp [authStep, hreq, hstep]

theorem proc_eq_idfalse (hm : HashAlg → Bytes → Bytes → Bytes) (getTs : Str → Option ℚ)
    (deser : Bytes → Option Bytes) (freshUuid : Str) (cfg : Config) (redis : Option Store)
    (now : ℚ) (method : Str) (signature request_id : Option Str) (body : Bytes) (rs : List Str)
    (hearly : ¬(method ≠ [80, 79, 83, 84] ∧ signature.isSome = true))
    (hsig : _has_valid_signature hm cfg body request_id signature = .ok true)
    (hreq : cfg.isUuidRequired = true)
    (hstep : _has_valid_request_id getTs cfg redis now request_id = .ok (false, rs)) :
    process_resource hm getTs deser freshUuid cfg redis now method signature request_id body =
      ⟨.verdict (mkVerdict deser cfg freshUuid request_id false body), true, redis, rs, []⟩ := by
  unfold process_resource
  rw [if_neg hearly, hsig]
  simp [authStep, hreq, hstep]

theorem valid_id_true_inv (getTs : Str → Option ℚ) (cfg : Config) (redis : Option Store)
    (now : ℚ) (request_id : Option Str) (rs : List Str)
    (h : _has_valid_request_id getTs cfg redis now request_id = .ok (true, rs)) :
    ∃ rid ts st, request_id = some rid ∧ getTs rid = some ts ∧ redis = some st ∧
      now - ts < cfg.expiry ∧ storeGet st now (_get_redis_key cfg rid) = none ∧
      rs = [_get_redis_key cfg rid] := by
  cases request_id with
  | none => simp [_has_valid_request_id] at h
  | some rid =>
    cases hts : getTs rid with
    | none => simp [_has_valid_request_id, hts] at h
    | some ts =>
      cases redis with
      | none => simp [_has_valid_request_id, hts, _has_unused_id] at h
      | some st =>
        simp only [_has_valid_request_id, hts, _has_unused_id, Except.ok.injEq,
          Prod.mk.injEq, Bool.and_eq_true, decide_eq_true_eq,
          Option.isNone_iff_eq_none] at h
        exact ⟨rid, ts, st, rfl, hts, rfl, h.1.1, h.1.2, h.2.symm⟩

theorem mkPayload_err_inv (cfg : Config) (body : Bytes) (request_id : Option Str)
    (e : PyError) (h : mkPayload cfg body request_id = .error e) : e = .noneEncode := by
  unfold mkPayload at h
  repeat' split at h
  all_goals simp_all

theorem compare_err_inv (g : SB) (sig : Option Str) (e : PyError)
    (h : compareDigest g sig = .error e) : e = .typeMismatch := by
  unfold compareDigest at h
  repeat' split at h
  all_goals simp_all

theorem sig_err_inv (hm : HashAlg → Bytes → Bytes → Bytes) (cfg : Config)
    (body : Bytes) (request_id signature : Option Str) (e : PyError)
    (h : _has_valid_signature hm cfg body request_id signature = .error e) :
    e = .noneEncode ∨ e = .noSecret ∨ e = .typeMismatch := by
  unfold _has_valid_signature at h
  cases hp : mkPayload cfg body request_id with
  | error e2 =>
    simp only [hp, Except.error.injEq] at h
    exact .inl (by rw [← h] ; exact mkPayload_err_inv cfg body request_id e2 hp)
  | ok payload =>
    simp only [hp] at h
    cases hs : cfg.secret with
    | none =>
      simp only [hs, Except.error.injEq] at h
      exact .inr (.inl h.symm)
    | some secret =>
      simp only [hs] at h
      cases hd : cfg.digest with
      | base64 =>
        simp only [hd] at h
        exact .inr (.inr (compare_err_inv _ _ _ h))
      | hex =>
        simp only [hd] at h
        exact .inr (.inr (compare_err_inv _ _ _ h))

theorem valid_id_err_inv (getTs : Str → Option ℚ) (cfg : Config) (st : Store)
    (now : ℚ) (request_id : Option Str) (e : PyError)
    (h : _has_valid_request_id getTs cfg (some st) now request_id = .error e) :
    e = .typeMismatch ∨ e = .uuidParse := by
  unfold _has_valid_request_id _has_unused_id at h
  repeat' split at h
  all_goals simp_all

theorem set_id_err_inv (cfg : Config) (st : Store) (now : ℚ) (request_id : Option Str)
    (e : PyError) (h : _set_id_as_used cfg (some st) now request_id = .error e) :
    e = .typeMismatch := by
  unfold _set_id_as_used at h
  repeat' split at h
  all_goals simp_all

/-! Theorems settling the claims. -/

/-- Claim C1 (code bug): with the default base64 digest configuration, a
transport signature whose text equals the base64 encoding of the HMAC
digest over identifier ++ body — exactly the reference construction — with
a fresh and unused identifier does not authenticate: the middleware raises
`TypeError`, because `base64.b64encode` returns `bytes` while the header
value is `str` and `hmac.compare_digest` rejects the mixed types. -/
theorem c1_roundtrip_b64_bug :
    b64encode (hmK HashAlg.sha256 (utf8 [115]) (utf8 [97] ++ [98])) = [65, 65, 61, 61] ∧
    tsZero [97] = some 0 ∧ (0 : ℚ) - 0 < cfgB64Req.expiry ∧
    storeGet [] 0 (_get_redis_key cfgB64Req [97]) = none ∧
    process_resource hmK tsZero desNone [102] cfgB64Req (some []) 0 postM
        (some [65, 65, 61, 61]) (some [97]) [98] =
      ⟨.exn .typeMismatch, true, some [], [], []⟩ := by
  refine ⟨by decide, rfl, by norm_num [cfgB64Req], by decide, ?_⟩
  norm_num [process_resource, _has_valid_signature, mkPayload, compareDigest, cfgB64Req,
    hmK, postM, utf8, utf8Char, b64encode, b64Char]

/-- Claim C4 (code bug): a GET request carrying no signature is not passed
through unauthenticated: the early-return guard fires only when a
signature IS present on a non-POST method, so the middleware consumes the
body and raises (`AttributeError` from `None.encode` when the UUID is
required, `TypeError` from the comparison otherwise); a GET that DOES
carry a signature is what gets passed through. -/
theorem c4_get_passthrough_bug :
    process_resource hmK tsZero desNone [102] cfgB64Req (some []) 0 getM none none [98] =
      ⟨.exn .noneEncode, true, some [], [], []⟩ ∧
    process_resource hmK tsZero desNone [102] cfgHexNoId (some []) 0 getM none none [98] =
      ⟨.exn .typeMismatch, true, some [], [], []⟩ ∧
    process_resource hmK tsZero desNone [102] cfgB64Req (some []) 0 getM
        (some [65, 65, 61, 61]) (some [97]) [98] =
      ⟨.earlyReturn, false, some [], [], []⟩ := by
  refine ⟨?_, ?_, ?_⟩ <;>
    norm_num [process_resource, _has_valid_signature, mkPayload, compareDigest,
      cfgB64Req, cfgHexNoId, hmK, getM, hexdigest, hexChar, allAscii]

/-- Claim C5 (code bug): per-request authentication failures do not all
surface as a negative verdict even though a secret is configured: in the
default base64 configuration a mismatched signature raises `TypeError`
(bytes-vs-str comparison), and a malformed identifier raises `ValueError`
out of `TimeUUID` even when the signature matches. -/
theorem c5_errors_propagate_bug :
    cfgB64Req.secret = some [115] ∧
    (process_resource hmK tsZero desNone [102] cfgB64Req (some []) 0 postM
        (some [120, 121]) (some [99]) [100]).outcome = .exn .typeMismatch ∧
    _has_valid_signature hmK cfgHexReq [98] (some [97]) (some [48, 48]) = .ok true ∧
    (process_resource hmK tsNone desNone [102] cfgHexReq (some []) 0 postM
        (some [48, 48]) (some [99]) [98]).outcome = .exn .uuidParse := by
  refine ⟨rfl, ?_, rfl, ?_⟩ <;>
    norm_num [process_resource, _has_valid_signature, mkPayload, compareDigest,
      cfgB64Req, cfgHexReq, hmK, postM, hexdigest, hexChar, allAscii, utf8, utf8Char,
      authStep, _has_valid_request_id, tsNone]

/-- Claim C2 counterexample: a first request with identifier "a" (hex
config) authenticates, and a second call one second later — well within
the retention window — presenting the same identifier but no signature
header raises `TypeError` rather than returning `authenticated = false`. -/
theorem c2_replay_counterexample :
    process_resource hmK tsZero desNone [102] cfgHexReq (some []) 0 postM
        (some [48, 48]) (some [97]) [98] =
      ⟨.verdict ⟨true, some [97], some [98], true, none⟩, true,
        some [([110, 46, 97], [97], 600)], [[110, 46, 97]], [([110, 46, 97], [97], 600)]⟩ ∧
    (1 : ℚ) < 0 + cfgHexReq.expiry * 2 ∧
    (process_resource hmK tsZero desNone [102] cfgHexReq
        (some [([110, 46, 97], [97], 600)]) 1 postM none (some [97]) [99]).outcome =
      .exn .typeMismatch := by
  refine ⟨?_, by norm_num [cfgHexReq], ?_⟩ <;>
    norm_num [process_resource, _has_valid_signature, mkPayload, compareDigest, authStep,
      _has_valid_request_id, _has_unused_id, _set_id_as_used, _get_redis_key,
      storeGet, storeSet, mkVerdict, cfgHexReq, hmK, postM, tsZero, desNone, hexdigest,
      hexChar, utf8, utf8Char, allAscii, List.find?, List.filter]

/-- Claim C2 (amended): once `process_resource` has returned
`authenticated = true` for a request bearing identifier `rid` with the
UUID required, the replay entry for `rid` is stored until `2 × expiry`
past the authentication time, and every subsequent call presenting the
same identifier within that window either raises before the replay check
or returns `authenticated = false` — never `authenticated = true` — and
leaves the store, hence the Used entry, unchanged. -/
theorem c2_replay_amended (hm : HashAlg → Bytes → Bytes → Bytes) (getTs : Str → Option ℚ)
    (deser : Bytes → Option Bytes) (freshUuid : Str) (cfg : Config) (redis : Option Store)
    (now : ℚ) (method : Str) (signature : Option Str) (rid : Str) (body : Bytes)
    (hreq : cfg.isUuidRequired = true) (v : Verdict)
    (h : (process_resource hm getTs deser freshUuid cfg redis now method signature
        (some rid) body).outcome = .verdict v)
    (hauth : v.authenticated = true) :
    ∃ st1, (process_resource hm getTs deser freshUuid cfg redis now method signature
        (some rid) body).store = some st1 ∧
      (∀ t, t < now + cfg.expiry * 2 → storeGet st1 t (_get_redis_key cfg rid) = some rid) ∧
      (∀ (hm' : HashAlg → Bytes → Bytes → Bytes) (getTs' : Str → Option ℚ)
          (deser' : Bytes → Option Bytes) (freshUuid' : Str) (now' : ℚ) (method' : Str)
          (signature' : Option Str) (body' : Bytes), now' < now + cfg.expiry * 2 →
        (∀ v2, (process_resource hm' getTs' deser' freshUuid' cfg (some st1) now' method'
            signature' (some rid) body').outcome = .verdict v2 → v2.authenticated = false) ∧
        (process_resource hm' getTs' deser' freshUuid' cfg (some st1) now' method'
            signature' (some rid) body').store = some st1 ∧
        (process_resource hm' getTs' deser' freshUuid' cfg (some st1) now' method'
            signature' (some rid) body').writes = []) := by
  obtain ⟨rid0, ts, st, hrid, hts, hfresh, hst, hg, hstore, hwr⟩ :=
    proc_auth_char hm getTs deser freshUuid cfg redis now method signature (some rid) body
      hreq v h hauth
  injection hrid with hrid0
  subst hrid0
  refine ⟨storeSet st now (_get_redis_key cfg rid) rid (cfg.expiry * 2), hstore, ?_, ?_⟩
  · intro t ht
    rw [storeGet_set_same]
    exact if_pos ht
  · intro hm' getTs' deser' freshUuid' now' method' signature' body' hnow
    have hused : storeGet (storeSet st now (_get_redis_key cfg rid) rid (cfg.expiry * 2))
        now' (_get_redis_key cfg rid) ≠ none := by
      rw [storeGet_set_same, if_pos hnow]
      simp
    obtain ⟨h1, h2, h3⟩ := proc_used_id_not_auth hm' getTs' deser' freshUuid' cfg _ now'
      method' signature' rid body' hreq hused
    exact ⟨h1, h2, h3⟩

/-- Witness for the amended Claim C2 at a concrete instance. -/
theorem c2_replay_witness :
    cfgHexReq.isUuidRequired = true ∧
    (process_resource hmK tsZero desNone [102] cfgHexReq (some []) 0 postM
        (some [48, 48]) (some [97]) [98]).outcome =
      .verdict ⟨true, some [97], some [98], true, none⟩ ∧
    (∃ st1, (process_resource hmK tsZero desNone [102] cfgHexReq (some []) 0 postM
        (some [48, 48]) (some [97]) [98]).store = some st1 ∧
      (∀ t, t < 0 + cfgHexReq.expiry * 2 →
        storeGet st1 t (_get_redis_key cfgHexReq [97]) = some [97]) ∧
      (∀ (hm' : HashAlg → Bytes → Bytes → Bytes) (getTs' : Str → Option ℚ)
          (deser' : Bytes → Option Bytes) (freshUuid' : Str) (now' : ℚ) (method' : Str)
          (signature' : Option Str) (body' : Bytes), now' < 0 + cfgHexReq.expiry * 2 →
        (∀ v2, (process_resource hm' getTs' deser' freshUuid' cfgHexReq (some st1) now'
            method' signature' (some [97]) body').outcome = .verdict v2 →
          v2.authenticated = false) ∧
        (process_resource hm' getTs' deser' freshUuid' cfgHexReq (some st1) now' method'
            signature' (some [97]) body').store = some st1 ∧
        (process_resource hm' getTs' deser' freshUuid' cfgHexReq (some st1) now' method'
            signature' (some [97]) body').writes = [])) := by
  have hout : (process_resource hmK tsZero desNone [102] cfgHexReq (some []) 0 postM
      (some [48, 48]) (some [97]) [98]).outcome =
        .verdict ⟨true, some [97], some [98], true, none⟩ := by
    norm_num [process_resource, _has_valid_signature, mkPayload, compareDigest, authStep,
      _has_valid_request_id, _has_unused_id, _set_id_as_used, _get_redis_key,
      storeGet, storeSet, mkVerdict, cfgHexReq, hmK, postM, tsZero, desNone, hexdigest,
      hexChar, utf8, utf8Char, allAscii, List.find?]
  exact ⟨rfl, hout, c2_replay_amended hmK tsZero desNone [102] cfgHexReq (some []) 0 postM
    (some [48, 48]) [97] [98] rfl ⟨true, some [97], some [98], true, none⟩ hout rfl⟩

/-- Claim C3: `_has_valid_request_id` applies a strict less-than freshness
bound: when the timestamp is extractable, the freshness component is true
iff `now - ts < expiry`; an identifier exactly `expiry` in the past is
rejected even when unused, while one `expiry - ε` in the past (ε > 0) and
unused is accepted. -/
theorem c3_freshness_strict (getTs : Str → Option ℚ) (cfg : Config) (st : Store)
    (now ts : ℚ) (rid : Str) (hts : getTs rid = some ts) :
    (∀ b rs, _has_valid_request_id getTs cfg (some st) now (some rid) = .ok (b, rs) →
      (b = true ↔ now - ts < cfg.expiry ∧
        storeGet st now (_get_redis_key cfg rid) = none)) ∧
    (now - ts = cfg.expiry →
      _has_valid_request_id getTs cfg (some st) now (some rid) =
        .ok (false, [_get_redis_key cfg rid])) ∧
    (∀ ε : ℚ, 0 < ε → now - ts = cfg.expiry - ε →
      storeGet st now (_get_redis_key cfg rid) = none →
      _has_valid_request_id getTs cfg (some st) now (some rid) =
        .ok (true, [_get_redis_key cfg rid])) := by
  refine ⟨?_, ?_, ?_⟩
  · intro b rs h
    simp only [_has_valid_request_id, hts, _has_unused_id, Except.ok.injEq,
      Prod.mk.injEq] at h
    rw [← h.1]
    simp [Bool.and_eq_true, Option.isNone_iff_eq_none]
  · intro hb
    simp only [_has_valid_request_id, hts, _has_unused_id, hb]
    simp [lt_irrefl]
  · intro ε hε heq hg
    have hlt : now - ts < cfg.expiry := by
      rw [heq]
      exact sub_lt_self _ hε
    simp only [_has_valid_request_id, hts, _has_unused_id, hg]
    simp [hlt]

/-- Witness for Claim C3 at a concrete instance. -/
theorem c3_freshness_witness :
    tsZero [97] = some 0 ∧
    ((∀ b rs, _has_valid_request_id tsZero cfgHexReq (some []) 0 (some [97]) = .ok (b, rs) →
      (b = true ↔ (0 : ℚ) - 0 < cfgHexReq.expiry ∧
        storeGet [] 0 (_get_redis_key cfgHexReq [97]) = none)) ∧
    ((0 : ℚ) - 0 = cfgHexReq.expiry →
      _has_valid_request_id tsZero cfgHexReq (some []) 0 (some [97]) =
        .ok (false, [_get_redis_key cfgHexReq [97]])) ∧
    (∀ ε : ℚ, 0 < ε → (0 : ℚ) - 0 = cfgHexReq.expiry - ε →
      storeGet [] 0 (_get_redis_key cfgHexReq [97]) = none →
      _has_valid_request_id tsZero cfgHexReq (some []) 0 (some [97]) =
        .ok (true, [_get_redis_key cfgHexReq [97]]))) :=
  ⟨rfl, c3_freshness_strict tsZero cfgHexReq [] 0 0 [97] rfl⟩

/-- Claim C6: the replay store is written exactly when the request
authenticates with the UUID required — exactly one write, whose key is
the nonce namespace ++ "." ++ identifier, whose value is the identifier
and whose TTL is `2 × expiry` — and on every other outcome (rejected
verdict, exception, early return, or UUID-not-required configuration) no
write happens and the store is unchanged. -/
theorem c6_markused_frame (hm : HashAlg → Bytes → Bytes → Bytes) (getTs : Str → Option ℚ)
    (deser : Bytes → Option Bytes) (freshUuid : Str) (cfg : Config) (redis : Option Store)
    (now : ℚ) (method : Str) (signature request_id : Option Str) (body : Bytes) :
    (cfg.isUuidRequired = false →
      (process_resource hm getTs deser freshUuid cfg redis now method signature
        request_id body).writes = [] ∧
      (process_resource hm getTs deser freshUuid cfg redis now method signature
        request_id body).store = redis) ∧
    ((process_resource hm getTs deser freshUuid cfg redis now method signature
        request_id body).outcome = .earlyReturn →
      (process_resource hm getTs deser freshUuid cfg redis now method signature
        request_id body).writes = [] ∧
      (process_resource hm getTs deser freshUuid cfg redis now method signature
        request_id body).store = redis) ∧
    (∀ e, (process_resource hm getTs deser freshUuid cfg redis now method signature
        request_id body).outcome = .exn e →
      (process_resource hm getTs deser freshUuid cfg redis now method signature
        request_id body).writes = [] ∧
      (process_resource hm getTs deser freshUuid cfg redis now method signature
        request_id body).store = redis) ∧
    (∀ v, (process_resource hm getTs deser freshUuid cfg redis now method signature
        request_id body).outcome = .verdict v → v.authenticated = false →
      (process_resource hm getTs deser freshUuid cfg redis now method signature
        request_id body).writes = [] ∧
      (process_resource hm getTs deser freshUuid cfg redis now method signature
        request_id body).store = redis) ∧
    (∀ v, (process_resource hm getTs deser freshUuid cfg redis now method signature
        request_id body).outcome = .verdict v → v.authenticated = true →
      cfg.isUuidRequired = true →
      ∃ rid st, request_id = some rid ∧ redis = some st ∧
        (process_resource hm getTs deser freshUuid cfg redis now method signature
          request_id body).writes = [(_get_redis_key cfg rid, rid, cfg.expiry * 2)] ∧
        (process_resource hm getTs deser freshUuid cfg redis now method signature
          request_id body).store =
          some (storeSet st now (_get_redis_key cfg rid) rid (cfg.expiry * 2))) := by
  by_cases hearly : method ≠ [80, 79, 83, 84] ∧ signature.isSome = true
  · rw [proc_eq_early hm getTs deser freshUuid cfg redis now method signature request_id
      body hearly]
    simp
  · cases hsig : _has_valid_signature hm cfg body request_id signature with
    | error e =>
      rw [proc_eq_sigerr hm getTs deser freshUuid cfg redis now method signature request_id
        body e hearly hsig]
      simp
    | ok matched =>
      cases matched with
      | false =>
        rw [proc_eq_nomatch hm getTs deser freshUuid cfg redis now method signature
          request_id body hearly hsig]
        simp [mkVerdict]
      | true =>
        cases hreqb : cfg.isUuidRequired with
        | false =>
          rw [proc_eq_noid hm getTs deser freshUuid cfg redis now method signature
            request_id body hearly hsig hreqb]
          simp [mkVerdict]
        | true =>
          cases hstep : _has_valid_request_id getTs cfg redis now request_id with
          | error e =>
            rw [proc_eq_idstep_err hm getTs deser freshUuid cfg redis now method signature
              request_id body e hearly hsig hreqb hstep]
            simp
          | ok br =>
            obtain ⟨b, rs⟩ := br
            cases b with
            | false =>
              rw [proc_eq_idfalse hm getTs deser freshUuid cfg redis now method signature
                request_id body rs hearly hsig hreqb hstep]
              simp [mkVerdict, hreqb]
            | true =>
              obtain ⟨rid, ts, st, hrid, hts, hst, hfresh, hg, hrs⟩ :=
                valid_id_true_inv getTs cfg redis now request_id rs hstep
              subst hrid hst
              rw [proc_eq_auth hm getTs deser freshUuid cfg st now method signature rid ts
                body hearly hsig hreqb hts hg hfresh]
              simp [mkVerdict, hreqb]

/-- Witness for Claim C6 at concrete instances: one write with TTL 600 on
the authenticated UUID-required call, no write when the UUID is not
required. -/
theorem c6_markused_witness :
    (process_resource hmK tsZero desNone [102] cfgHexReq (some []) 0 postM
        (some [48, 48]) (some [97]) [98]).writes = [([110, 46, 97], [97], 600)] ∧
    (process_resource hmK tsZero desNone [102] cfgHexNoId (some []) 0 postM
        (some [48, 48]) none [98]).writes = [] := by
  constructor
  · obtain ⟨rid, st, hrid, hst, hw, hstore⟩ :=
      (c6_markused_frame hmK tsZero desNone [102] cfgHexReq (some []) 0 postM
        (some [48, 48]) (some [97]) [98]).2.2.2.2 ⟨true, some [97], some [98], true, none⟩
        (by norm_num [process_resource, _has_valid_signature, mkPayload, compareDigest,
          authStep, _has_valid_request_id, _has_unused_id, _set_id_as_used, _get_redis_key,
          storeGet, storeSet, mkVerdict, cfgHexReq, hmK, postM, tsZero, desNone, hexdigest,
          hexChar, utf8, utf8Char, allAscii, List.find?]) rfl rfl
    injection hrid with hrid0
    subst hrid0
    rw [hw]
    norm_num [_get_redis_key, cfgHexReq]
  · exact ((c6_markused_frame hmK tsZero desNone [102] cfgHexNoId (some []) 0 postM
      (some [48, 48]) none [98]).1 rfl).1

/-- Claim C7 counterexample: with the UUID not required and the base64
digest, a transport signature whose text equals the base64 encoding of
the HMAC digest over the body alone — a matching signature — does not
yield `authenticated = true`: the comparison raises `TypeError`. -/
theorem c7_matching_sig_counterexample :
    b64encode (hmK HashAlg.sha256 (utf8 [115]) [98]) = [65, 65, 61, 61] ∧
    (process_resource hmK tsZero desNone [102] cfgB64NoId (some []) 0 postM
        (some [65, 65, 61, 61]) none [98]).outcome = .exn .typeMismatch := by
  refine ⟨by decide, ?_⟩
  norm_num [process_resource, _has_valid_signature, mkPayload, compareDigest, cfgB64NoId,
    hmK, postM, utf8, utf8Char, b64encode, b64Char]

/-- Claim C7 (amended): with `identifierRequired = false` the replay store
is never invoked — no reads, no writes, the store is returned unchanged,
and the outcome does not depend on the store at all — and a missing
identifier is never a reason to reject: a matching hex-digest signature
alone yields `authenticated = true` (with the base64 digest the
comparison raises instead; see the counterexample). -/
theorem c7_no_store_amended (hm : HashAlg → Bytes → Bytes → Bytes) (getTs : Str → Option ℚ)
    (deser : Bytes → Option Bytes) (freshUuid : Str) (cfg : Config) (redis : Option Store)
    (now : ℚ) (method : Str) (signature request_id : Option Str) (body : Bytes)
    (hreq : cfg.isUuidRequired = false) :
    (process_resource hm getTs deser freshUuid cfg redis now method signature
      request_id body).reads = [] ∧
    (process_resource hm getTs deser freshUuid cfg redis now method signature
      request_id body).writes = [] ∧
    (process_resource hm getTs deser freshUuid cfg redis now method signature
      request_id body).store = redis ∧
    (∀ redis' : Option Store,
      (process_resource hm getTs deser freshUuid cfg redis' now method signature
        request_id body).outcome =
      (process_resource hm getTs deser freshUuid cfg redis now method signature
        request_id body).outcome) ∧
    (∀ sec, cfg.secret = some sec → cfg.digest = .hex →
      (∀ x ∈ hm cfg.hash (utf8 sec) body, x < 256) →
      signature = some (hexdigest (hm cfg.hash (utf8 sec) body)) →
      method = [80, 79, 83, 84] →
      (process_resource hm getTs deser freshUuid cfg redis now method signature
          request_id body).outcome =
        .verdict (mkVerdict deser cfg freshUuid request_id true body) ∧
      (mkVerdict deser cfg freshUuid request_id true body).authenticated = true) := by
  have hsplit : ∀ rd : Option Store,
      process_resource hm getTs deser freshUuid cfg rd now method signature request_id
        body =
      ⟨(process_resource hm getTs deser freshUuid cfg none now method signature request_id
          body).outcome,
        (process_resource hm getTs deser freshUuid cfg none now method signature request_id
          body).bodyRead, rd, [], []⟩ := by
    intro rd
    by_cases hearly : method ≠ [80, 79, 83, 84] ∧ signature.isSome = true
    · rw [proc_eq_early hm getTs deser freshUuid cfg rd now method signature request_id
        body hearly,
        proc_eq_early hm getTs deser freshUuid cfg none now method signature request_id
        body hearly]
    · cases hsig : _has_valid_signature hm cfg body request_id signature with
      | error e =>
        rw [proc_eq_sigerr hm getTs deser freshUuid cfg rd now method signature request_id
          body e hearly hsig,
          proc_eq_sigerr hm getTs deser freshUuid cfg none now method signature request_id
          body e hearly hsig]
      | ok matched =>
        cases matched with
        | false =>
          rw [proc_eq_nomatch hm getTs deser freshUuid cfg rd now method signature
            request_id body hearly hsig,
            proc_eq_nomatch hm getTs deser freshUuid cfg none now method signature
            request_id body hearly hsig]
        | true =>
          rw [proc_eq_noid hm getTs deser freshUuid cfg rd now method signature request_id
            body hearly hsig hreq,
            proc_eq_noid hm getTs deser freshUuid cfg none now method signature request_id
            body hearly hsig hreq]
  refine ⟨by rw [hsplit redis], by rw [hsplit redis], by rw [hsplit redis], ?_, ?_⟩
  · intro redis'
    rw [hsplit redis, hsplit redis']
  · intro sec hsec hdig hbytes hsigv hmeth
    have hearly : ¬(method ≠ [80, 79, 83, 84] ∧ signature.isSome = true) := by
      simp [hmeth]
    have hsig : _has_valid_signature hm cfg body request_id signature = .ok true := by
      unfold _has_valid_signature mkPayload
      rw [hreq]
      simp only [Bool.false_eq_true, if_false, hsec, hdig, hsigv]
      rw [compareDigest_self _ (hexdigest_ascii _ hbytes)]
    rw [proc_eq_noid hm getTs deser freshUuid cfg redis now method signature request_id
      body hearly hsig hreq]
    exact ⟨rfl, rfl⟩

/-- Witness for the amended Claim C7 at a concrete instance. -/
theorem c7_no_store_witness :
    cfgHexNoId.isUuidRequired = false ∧
    ((process_resource hmK tsZero desNone [102] cfgHexNoId (some []) 0 postM
        (some [48, 48]) none [98]).reads = [] ∧
    (process_resource hmK tsZero desNone [102] cfgHexNoId (some []) 0 postM
        (some [48, 48]) none [98]).writes = [] ∧
    (process_resource hmK tsZero desNone [102] cfgHexNoId (some []) 0 postM
        (some [48, 48]) none [98]).store = some [] ∧
    (∀ redis' : Option Store,
      (process_resource hmK tsZero desNone [102] cfgHexNoId redis' 0 postM
        (some [48, 48]) none [98]).outcome =
      (process_resource hmK tsZero desNone [102] cfgHexNoId (some []) 0 postM
        (some [48, 48]) none [98]).outcome) ∧
    (∀ sec, cfgHexNoId.secret = some sec → cfgHexNoId.digest = .hex →
      (∀ x ∈ hmK cfgHexNoId.hash (utf8 sec) [98], x < 256) →
      (some [48, 48] : Option Str) = some (hexdigest (hmK cfgHexNoId.hash (utf8 sec) [98])) →
      postM = [80, 79, 83, 84] →
      (process_resource hmK tsZero desNone [102] cfgHexNoId (some []) 0 postM
          (some [48, 48]) none [98]).outcome =
        .verdict (mkVerdict desNone cfgHexNoId [102] none true [98]) ∧
      (mkVerdict desNone cfgHexNoId [102] none true [98]).authenticated = true)) :=
  ⟨rfl, c7_no_store_amended hmK tsZero desNone [102] cfgHexNoId (some []) 0 postM
    (some [48, 48]) none [98] rfl⟩

theorem proc_verdict_inv (hm : HashAlg → Bytes → Bytes → Bytes) (getTs : Str → Option ℚ)
    (deser : Bytes → Option Bytes) (freshUuid : Str) (cfg : Config) (redis : Option Store)
    (now : ℚ) (method : Str) (signature request_id : Option Str) (body : Bytes) (v : Verdict)
    (h : (process_resource hm getTs deser freshUuid cfg redis now method signature
        request_id body).outcome = .verdict v) :
    ∃ b, v = mkVerdict deser cfg freshUuid request_id b body := by
  by_cases hearly : method ≠ [80, 79, 83, 84] ∧ signature.isSome = true
  · rw [proc_eq_early hm getTs deser freshUuid cfg redis now method signature request_id
      body hearly] at h
    simp at h
  · cases hsig : _has_valid_signature hm cfg body request_id signature with
    | error e =>
      rw [proc_eq_sigerr hm getTs deser freshUuid cfg redis now method signature request_id
        body e hearly hsig] at h
      simp at h
    | ok matched =>
      cases matched with
      | false =>
        rw [proc_eq_nomatch hm getTs deser freshUuid cfg redis now method signature
          request_id body hearly hsig] at h
        exact ⟨false, by injection h with h2 ; exact h2.symm⟩
      | true =>
        cases hreqb : cfg.isUuidRequired with
        | false =>
          rw [proc_eq_noid hm getTs deser freshUuid cfg redis now method signature
            request_id body hearly hsig hreqb] at h
          exact ⟨true, by injection h with h2 ; exact h2.symm⟩
        | true =>
          cases hstep : _has_valid_request_id getTs cfg redis now request_id with
          | error e =>
            rw [proc_eq_idstep_err hm getTs deser freshUuid cfg redis now method signature
              request_id body e hearly hsig hreqb hstep] at h
            simp at h
          | ok br =>
            obtain ⟨b, rs⟩ := br
            cases b with
            | false =>
              rw [proc_eq_idfalse hm getTs deser freshUuid cfg redis now method signature
                request_id body rs hearly hsig hreqb hstep] at h
              exact ⟨false, by injection h with h2 ; exact h2.symm⟩
            | true =>
              obtain ⟨rid, ts, st, hrid, hts, hst, hfresh, hg, hrs⟩ :=
                valid_id_true_inv getTs cfg redis now request_id rs hstep
              subst hrid hst
              rw [proc_eq_auth hm getTs deser freshUuid cfg st now method signature rid ts
                body hearly hsig hreqb hts hg hfresh] at h
              exact ⟨true, by injection h with h2 ; exact h2.symm⟩

/-- Claim C9: media parsing is attempted exactly on authenticated
verdicts; an authenticated verdict keeps the raw body attached and
carries the deserializer's result (a failed parse leaves `media` empty),
and swapping the deserializer for any other — including an always-failing
one — changes nothing but the `media` field: it cannot alter the
authentication verdict, the store, or raise an exception. -/
theorem c9_parse_swallowed (hm : HashAlg → Bytes → Bytes → Bytes) (getTs : Str → Option ℚ)
    (deser : Bytes → Option Bytes) (freshUuid : Str) (cfg : Config) (redis : Option Store)
    (now : ℚ) (method : Str) (signature request_id : Option Str) (body : Bytes) :
    (∀ v, (process_resource hm getTs deser freshUuid cfg redis now method signature
        request_id body).outcome = .verdict v →
      v.mediaAttempted = v.authenticated ∧
      (v.authenticated = true → v.reqBody = some body ∧ v.media = deser body)) ∧
    (∀ deser' : Bytes → Option Bytes,
      scrubMedia (process_resource hm getTs deser' freshUuid cfg redis now method signature
        request_id body) =
      scrubMedia (process_resource hm getTs deser freshUuid cfg redis now method signature
        request_id body)) := by
  constructor
  · intro v hv
    obtain ⟨b, hb⟩ := proc_verdict_inv hm getTs deser freshUuid cfg redis now method
      signature request_id body v hv
    subst hb
    cases b <;> simp [mkVerdict]
  · intro deser'
    by_cases hearly : method ≠ [80, 79, 83, 84] ∧ signature.isSome = true
    · rw [proc_eq_early hm getTs deser' freshUuid cfg redis now method signature request_id
        body hearly,
        proc_eq_early hm getTs deser freshUuid cfg redis now method signature request_id
        body hearly]
    · cases hsig : _has_valid_signature hm cfg body request_id signature with
      | error e =>
        rw [proc_eq_sigerr hm getTs deser' freshUuid cfg redis now method signature
          request_id body e hearly hsig,
          proc_eq_sigerr hm getTs deser freshUuid cfg redis now method signature
          request_id body e hearly hsig]
      | ok matched =>
        cases matched with
        | false =>
          rw [proc_eq_nomatch hm getTs deser' freshUuid cfg redis now method signature
            request_id body hearly hsig,
            proc_eq_nomatch hm getTs deser freshUuid cfg redis now method signature
            request_id body hearly hsig]
          simp [scrubMedia, mkVerdict]
        | true =>
          cases hreqb : cfg.isUuidRequired with
          | false =>
            rw [proc_eq_noid hm getTs deser' freshUuid cfg redis now method signature
              request_id body hearly hsig hreqb,
              proc_eq_noid hm getTs deser freshUuid cfg redis now method signature
              request_id body hearly hsig hreqb]
            simp [scrubMedia, mkVerdict]
          | true =>
            cases hstep : _has_valid_request_id getTs cfg redis now request_id with
            | error e =>
              rw [proc_eq_idstep_err hm getTs deser' freshUuid cfg redis now method
                signature request_id body e hearly hsig hreqb hstep,
                proc_eq_idstep_err hm getTs deser freshUuid cfg redis now method signature
                request_id body e hearly hsig hreqb hstep]
            | ok br =>
              obtain ⟨b, rs⟩ := br
              cases b with
              | false =>
                rw [proc_eq_idfalse hm getTs deser' freshUuid cfg redis now method
                  signature request_id body rs hearly hsig hreqb hstep,
                  proc_eq_idfalse hm getTs deser freshUuid cfg redis now method signature
                  request_id body rs hearly hsig hreqb hstep]
                simp [scrubMedia, mkVerdict]
              | true =>
                obtain ⟨rid, ts, st, hrid, hts, hst, hfresh, hg, hrs⟩ :=
                  valid_id_true_inv getTs cfg redis now request_id rs hstep
                subst hrid hst
                rw [proc_eq_auth hm getTs deser' freshUuid cfg st now method signature rid
                  ts body hearly hsig hreqb hts hg hfresh,
                  proc_eq_auth hm getTs deser freshUuid cfg st now method signature rid ts
                  body hearly hsig hreqb hts hg hfresh]
                simp [scrubMedia, mkVerdict]

/-- Witness for Claim C9 at a concrete instance: the authenticated call
keeps the raw body, its media field is the deserializer output, and an
always-succeeding deserializer gives the same scrubbed result as the
always-failing one. -/
theorem c9_parse_witness :
    ((⟨true, some [97], some [98], true, none⟩ : Verdict).reqBody = some [98] ∧
      (⟨true, some [97], some [98], true, none⟩ : Verdict).media = desNone [98]) ∧
    scrubMedia (process_resource hmK tsZero (fun b => some b) [102] cfgHexReq (some []) 0
        postM (some [48, 48]) (some [97]) [98]) =
      scrubMedia (process_resource hmK tsZero desNone [102] cfgHexReq (some []) 0 postM
        (some [48, 48]) (some [97]) [98]) := by
  have hc := c9_parse_swallowed hmK tsZero desNone [102] cfgHexReq (some []) 0 postM
    (some [48, 48]) (some [97]) [98]
  refine ⟨(hc.1 ⟨true, some [97], some [98], true, none⟩ ?_).2 rfl, hc.2 (fun b => some b)⟩
  norm_num [process_resource, _has_valid_signature, mkPayload, compareDigest, authStep,
    _has_valid_request_id, _has_unused_id, _set_id_as_used, _get_redis_key,
    storeGet, storeSet, mkVerdict, cfgHexReq, hmK, postM, tsZero, desNone, hexdigest,
    hexChar, utf8, utf8Char, allAscii, List.find?]

/-- Claim C10 counterexample: with the UUID required and no store
supplied, a request bearing a matching signature but a malformed
identifier raises `ValueError` from the `TimeUUID` parse — not an
assertion failure — so the assertion is not what fires on every matching
request. -/
theorem c10_assert_counterexample :
    _has_valid_signature hmK cfgHexReq [98] (some [97]) (some [48, 48]) = .ok true ∧
    (process_resource hmK tsNone desNone [102] cfgHexReq none 0 postM (some [48, 48])
        (some [97]) [98]).outcome = .exn .uuidParse ∧
    PyError.uuidParse ≠ PyError.assertFail := by
  refine ⟨rfl, ?_, by decide⟩
  norm_num [process_resource, _has_valid_signature, mkPayload, compareDigest, authStep,
    _has_valid_request_id, cfgHexReq, hmK, postM, tsNone, hexdigest, hexChar, utf8,
    utf8Char, allAscii]

/-- Claim C10 (amended): when a store is supplied the two `assert
self.redis is not None` guards never fire — no call outcome is an
`AssertionError` — and conversely, with the UUID required and no store
supplied, every POST request bearing a matching signature whose
identifier timestamp is extractable dies on the assertion in the replay
check instead of producing a verdict. -/
theorem c10_assert_amended (hm : HashAlg → Bytes → Bytes → Bytes) (getTs : Str → Option ℚ)
    (deser : Bytes → Option Bytes) (freshUuid : Str) (cfg : Config) :
    (∀ (st : Store) (now : ℚ) (method : Str) (signature request_id : Option Str)
        (body : Bytes),
      (process_resource hm getTs deser freshUuid cfg (some st) now method signature
        request_id body).outcome ≠ .exn .assertFail) ∧
    (∀ (now : ℚ) (method : Str) (signature : Option Str) (rid : Str) (body : Bytes) (ts : ℚ),
      cfg.isUuidRequired = true → method = [80, 79, 83, 84] →
      _has_valid_signature hm cfg body (some rid) signature = .ok true →
      getTs rid = some ts →
      (process_resource hm getTs deser freshUuid cfg none now method signature (some rid)
        body).outcome = .exn .assertFail) := by
  constructor
  · intro st now method signature request_id body
    by_cases hearly : method ≠ [80, 79, 83, 84] ∧ signature.isSome = true
    · rw [proc_eq_early hm getTs deser freshUuid cfg (some st) now method signature
        request_id body hearly]
      simp
    · cases hsig : _has_valid_signature hm cfg body request_id signature with
      | error e =>
        rw [proc_eq_sigerr hm getTs deser freshUuid cfg (some st) now method signature
          request_id body e hearly hsig]
        rcases sig_err_inv hm cfg body request_id signature e hsig with h | h | h <;>
          (subst h ; simp)
      | ok matched =>
        cases matched with
        | false =>
          rw [proc_eq_nomatch hm getTs deser freshUuid cfg (some st) now method signature
            request_id body hearly hsig]
          simp
        | true =>
          cases hreqb : cfg.isUuidRequired with
          | false =>
            rw [proc_eq_noid hm getTs deser freshUuid cfg (some st) now method signature
              request_id body hearly hsig hreqb]
            simp
          | true =>
            cases hstep : _has_valid_request_id getTs cfg (some st) now request_id with
            | error e =>
              rw [proc_eq_idstep_err hm getTs deser freshUuid cfg (some st) now method
                signature request_id body e hearly hsig hreqb hstep]
              rcases valid_id_err_inv getTs cfg st now request_id e hstep with h | h <;>
                (subst h ; simp)
            | ok br =>
              obtain ⟨b, rs⟩ := br
              cases b with
              | false =>
                rw [proc_eq_idfalse hm getTs deser freshUuid cfg (some st) now method
                  signature request_id body rs hearly hsig hreqb hstep]
                simp
              | true =>
                obtain ⟨rid, ts, st2, hrid, hts, hst, hfresh, hg, hrs⟩ :=
                  valid_id_true_inv getTs cfg (some st) now request_id rs hstep
                subst hrid
                injection hst with hst2
                subst hst2
                rw [proc_eq_auth hm getTs deser freshUuid cfg st now method signature rid
                  ts body hearly hsig hreqb hts hg hfresh]
                simp
  · intro now method signature rid body ts hreqb hmeth hsig hts
    have hearly : ¬(method ≠ [80, 79, 83, 84] ∧ signature.isSome = true) := by
      simp [hmeth]
    have hstep : _has_valid_request_id getTs cfg none now (some rid) = .error .assertFail := by
      simp [_has_valid_request_id, hts, _has_unused_id]
    rw [proc_eq_idstep_err hm getTs deser freshUuid cfg none now method signature
      (some rid) body .assertFail hearly hsig hreqb hstep]

/-- Witness for the amended Claim C10 at concrete instances. -/
theorem c10_assert_witness :
    (process_resource hmK tsZero desNone [102] cfgHexReq (some []) 0 postM (some [48, 48])
        (some [97]) [98]).outcome ≠ .exn .assertFail ∧
    (process_resource hmK tsZero desNone [102] cfgHexReq none 0 postM (some [48, 48])
        (some [97]) [98]).outcome = .exn .assertFail := by
  have hc := c10_assert_amended hmK tsZero desNone [102] cfgHexReq
  exact ⟨hc.1 [] 0 postM (some [48, 48]) (some [97]) [98],
    hc.2 0 postM (some [48, 48]) [97] [98] 0 rfl rfl rfl rfl⟩
